import Mathlib

set_option maxRecDepth 100000

/-!
Verification of the cold-call agent (`my_submission.py`).

This file gives a shallow embedding of the program's data model and
operations, and proves (or refutes) the frozen claims about it.

Conventions of the embedding:
* Python dicts over string keys become association lists
  (`List (String × α)`) with first-match lookup; `dictSet` replaces an
  existing binding in place, matching Python dict assignment.
* The Gemini backend, the speech recognizer and the text-to-speech
  player are external collaborators; they are modelled as oracles
  supplied to the functions that call them.  An `Except.error` from an
  oracle stands for an unexpected Python exception escaping that call.
* `str.format` is modelled character by character (`pyFormatAux`),
  including the `{{` / `}}` escapes and the truncation of a replacement
  field at `!` or `:`; nested format specs, attribute access and
  positional fields are not used by any template of the program and are
  not modelled (a field containing them simply fails the keyword
  lookup, as a positional field does in the real `str.format` when only
  keyword arguments are supplied).
* `str.lower` is modelled on the ASCII range (`pyLower`); every string
  the claims compare against the exit-phrase set is pure ASCII.
-/

/-- First-match lookup in an association list with a default, modelling
Python `dict.get(key, default)`. -/
def dictGet : List (String × α) → String → α → α
  | [], _, d => d
  | (k, v) :: rest, key, d => if key = k then v else dictGet rest key d

/-- Key update in an association list, modelling Python `dict[key] = value`
(an existing key keeps its insertion position). -/
def dictSet : List (String × α) → String → α → List (String × α)
  | [], key, v => [(key, v)]
  | (k, w) :: rest, key, v =>
      if key = k then (key, v) :: rest else (k, w) :: dictSet rest key v

/-- Whether an association list binds a key. -/
def dictHasKey : List (String × α) → String → Bool
  | [], _ => false
  | (k, _) :: rest, key => if key = k then true else dictHasKey rest key

/-- One conversation turn: `{"role": ..., "content": ...}` as appended by
`ConversationMemory.add_user_message` / `add_agent_message`. -/
structure Turn where
  role : String
  content : String
deriving DecidableEq, Repr

/-- Model of `ConversationMemory` (source lines 127-185): two context buckets and
the ordered message history. -/
structure ConversationMemory where
  context : List (String × List (String × String))
  messages : List Turn
deriving DecidableEq, Repr

/-- Model of `ConversationMemory.__init__`: empty profile and knowledge buckets,
no messages. -/
def ConversationMemory.init : ConversationMemory :=
  { context := [("profile", []), ("knowledge", [])], messages := [] }

/-- Model of `add_user_message` (source lines 138-144). -/
def ConversationMemory.add_user_message
    (mem : ConversationMemory) (message : String) : ConversationMemory :=
  { mem with messages := mem.messages ++ [{ role := "user", content := message }] }

/-- Model of `add_agent_message` (source lines 146-152). -/
def ConversationMemory.add_agent_message
    (mem : ConversationMemory) (message : String) : ConversationMemory :=
  { mem with messages := mem.messages ++ [{ role := "agent", content := message }] }

/-- Model of `get_conversation_history` (source lines 154-164): fold over the
messages accumulating one `Role: content\n` record per turn. -/
def ConversationMemory.get_conversation_history
    (mem : ConversationMemory) : String :=
  mem.messages.foldl
    (fun history msg =>
      let pfx := if msg.role = "user" then "Customer" else "AI"
      history ++ pfx ++ ": " ++ msg.content ++ "\n")
    ""

/-- Model of `set_context` (source lines 166-173). -/
def ConversationMemory.set_context
    (mem : ConversationMemory) (key : String)
    (data : List (String × String)) : ConversationMemory :=
  { mem with context := dictSet mem.context key data }

/-- Model of `get_context` (source lines 175-185). -/
def ConversationMemory.get_context
    (mem : ConversationMemory) (key : String)
    (default : List (String × String)) : List (String × String) :=
  dictGet mem.context key default

/-- Demo-scenario greeting template (source lines 263-279), verbatim. -/
def demo_greeting : String :=
"
                You are an AI assistant conducting a cold call in Hinglish (mix of Hindi and English).
                
                You\x27re a sales representative for an ERP software company.
                Your goal is to schedule a product demo.
                
                Customer profile:
                Name: {name}
                Company: {company}
                Role: {role}
                Interest area: {interest_area}
                Company size: {company_size}
                
                Start with a friendly greeting in Hinglish.
                Introduce yourself, mention your company, and state the purpose of your call.
                Keep your response concise (2-3 sentences) and end with an open question.
                "

/-- Demo-scenario conversation template (source lines 281-304), verbatim. -/
def demo_conversation : String :=
"
                You are an AI assistant conducting a cold call in Hinglish (mix of Hindi and English).
                
                You\x27re a sales representative for an ERP software company.
                Your goal is to schedule a product demo.
                Highlight benefits relevant to the customer\x27s interests.
                Try to get a specific date and time for the demo.
                
                Customer profile:
                Name: {name}
                Company: {company}
                Role: {role}
                Interest area: {interest_area}
                Company size: {company_size}
                
                Conversation history:
                {conversation_history}
                
                Customer\x27s most recent message: {user_input}
                
                Respond in Hinglish with a friendly, professional tone.
                Address customer concerns empathetically and move the conversation toward scheduling a demo.
                Keep your response concise (2-4 sentences).
                "

/-- Demo-scenario farewell template (source lines 306-325), verbatim. -/
def demo_farewell : String :=
"
                You are an AI assistant concluding a cold call in Hinglish (mix of Hindi and English).
                
                You\x27re a sales representative for an ERP software company.
                
                Customer profile:
                Name: {name}
                Company: {company}
                
                Conversation history:
                {conversation_history}
                
                Create a polite and warm closing statement in Hinglish that:
                1. Thanks the customer for their time
                2. Summarizes any demo scheduling details
                3. Mentions that you\x27ll send a confirmation email
                4. Ends on a positive note
                
                Keep your response concise (2-3 sentences).
                "

/-- Interview-scenario greeting template (source lines 329-350), verbatim. -/
def interview_greeting : String :=
"
                You are an AI assistant conducting an interview in Hinglish (mix of Hindi and English).
                
                You\x27re an HR representative conducting an initial screening interview.
                Your goal is to assess the candidate\x27s fit for the position.
                
                Candidate profile:
                Name: {name}
                Experience: {experience}
                Current role: {current_role}
                Applied for: {applied_for}
                
                Position details:
                Position: {position}
                Skills required: {skills}
                Experience required: {experience_required}
                Company domain: {company_domain}
                
                Start with a friendly greeting in Hinglish.
                Introduce yourself, mention your company, and explain the interview process.
                Keep your response concise (2-3 sentences) and end with an open question about their background.
                "

/-- Interview-scenario conversation template (source lines 352-380), verbatim. -/
def interview_conversation : String :=
"
                You are an AI assistant conducting an interview in Hinglish (mix of Hindi and English).
                
                You\x27re an HR representative conducting an initial screening interview.
                Your goal is to assess the candidate\x27s fit for the position.
                Ask about relevant skills, experiences, and interest in the role.
                Evaluate communication skills and cultural fit.
                
                Candidate profile:
                Name: {name}
                Experience: {experience}
                Current role: {current_role}
                Applied for: {applied_for}
                
                Position details:
                Position: {position}
                Skills required: {skills}
                Experience required: {experience_required}
                Company domain: {company_domain}
                
                Interview history:
                {conversation_history}
                
                Candidate\x27s most recent response: {user_input}
                
                Respond in Hinglish with a professional tone.
                Ask follow-up questions that help assess the candidate\x27s suitability.
                Keep your response concise (2-3 sentences).
                "

/-- Interview-scenario farewell template (source lines 382-401), verbatim. -/
def interview_farewell : String :=
"
                You are an AI assistant concluding an interview in Hinglish (mix of Hindi and English).
                
                You\x27re an HR representative who has just completed an initial screening interview.
                
                Candidate profile:
                Name: {name}
                Applied for: {applied_for}
                
                Interview history:
                {conversation_history}
                
                Create a polite and professional closing statement in Hinglish that:
                1. Thanks the candidate for their time
                2. Explains the next steps in the interview process
                3. Mentions when they can expect to hear back
                4. Ends on an encouraging note
                
                Keep your response concise (2-3 sentences).
                "

/-- Payment-scenario greeting template (source lines 405-425), verbatim. -/
def payment_greeting : String :=
"
                You are an AI assistant conducting a payment follow-up call in Hinglish (mix of Hindi and English).
                
                You\x27re from the accounts department following up on an overdue payment.
                Your goal is to secure a commitment for payment.
                
                Customer profile:
                Name: {name}
                Company: {company}
                Role: {role}
                
                Invoice details:
                Invoice number: {invoice_number}
                Due amount: {due_amount}
                Days late: {days_late}
                Payment history: {payment_history}
                
                Start with a polite greeting in Hinglish.
                Introduce yourself, mention your company\x27s accounts department, and state the purpose of your call.
                Keep your response concise (2-3 sentences) and be respectful but direct about the overdue payment.
                "

/-- Payment-scenario conversation template (source lines 427-454), verbatim. -/
def payment_conversation : String :=
"
                You are an AI assistant conducting a payment follow-up call in Hinglish (mix of Hindi and English).
                
                You\x27re from the accounts department following up on an overdue payment.
                Your goal is to secure a commitment for payment.
                Be polite but firm about the urgency.
                Try to get a specific date for when the payment will be made.
                
                Customer profile:
                Name: {name}
                Company: {company}
                Role: {role}
                
                Invoice details:
                Invoice number: {invoice_number}
                Due amount: {due_amount}
                Days late: {days_late}
                Payment history: {payment_history}
                
                Conversation history:
                {conversation_history}
                
                Customer\x27s most recent message: {user_input}
                
                Respond in Hinglish with a professional tone.
                Be understanding but firm about the need for payment.
                Keep your response concise (2-3 sentences).
                "

/-- Payment-scenario farewell template (source lines 456-479), verbatim. -/
def payment_farewell : String :=
"
                You are an AI assistant concluding a payment follow-up call in Hinglish (mix of Hindi and English).
                
                You\x27re from the accounts department following up on an overdue payment.
                
                Customer profile:
                Name: {name}
                Company: {company}
                
                Invoice details:
                Invoice number: {invoice_number}
                Due amount: {due_amount}
                
                Conversation history:
                {conversation_history}
                
                Create a polite and professional closing statement in Hinglish that:
                1. Thanks the customer for their time
                2. Summarizes any payment commitments made
                3. Confirms any next steps
                4. Ends on a positive note
                
                Keep your response concise (2-3 sentences).
                "

/-- The nested template catalog of `_get_prompt_template`
(source lines 261-481): scenario, then phase. -/
def templates : List (String × List (String × String)) :=
  [("demo",
     [("greeting", demo_greeting),
      ("conversation", demo_conversation),
      ("farewell", demo_farewell)]),
   ("interview",
     [("greeting", interview_greeting),
      ("conversation", interview_conversation),
      ("farewell", interview_farewell)]),
   ("payment",
     [("greeting", payment_greeting),
      ("conversation", payment_conversation),
      ("farewell", payment_farewell)])]

/-- Model of `_get_prompt_template` (source lines 252-483):
`templates.get(self.scenario, {}).get(phase, "")` — both lookups default
silently, the outer to an empty dict, the inner to the empty string. -/
def _get_prompt_template (scenario phase : String) : String :=
  dictGet (dictGet templates scenario []) phase ""

/-- ASCII model of Python `str.lower` on a single character: uppercase
ASCII letters (codes 65-90) shift down by 32, everything else is kept. -/
def pyLowerChar (c : Char) : Char :=
  if 65 ≤ c.toNat ∧ c.toNat ≤ 90 then Char.ofNat (c.toNat + 32) else c

/-- ASCII model of Python `str.lower`. -/
def pyLower (s : String) : String :=
  String.mk (s.data.map pyLowerChar)

/-- Outcome of one attempt of the speech recognizer, before
`recognize_speech` post-processes it (source lines 53-88): a successful
transcription, or one of the three caught failure modes
(`sr.UnknownValueError`, `sr.RequestError`, `sr.WaitTimeoutError`). -/
inductive RecognitionResult where
  | success (text : String)
  | unknownValue
  | requestError
  | waitTimeout
deriving DecidableEq, Repr

/-- Model of `recognize_speech` (source lines 53-88): a successful transcription
is returned lowercased (`return text.lower()`); each of the three caught
failure modes falls through to `return ""`. -/
def recognize_speech : RecognitionResult → String
  | .success text => pyLower text
  | .unknownValue => ""
  | .requestError => ""
  | .waitTimeout => ""

/-- The opening brace character of a replacement field. -/
def lbrace : Char := '\x7b'

/-- The closing brace character of a replacement field. -/
def rbrace : Char := '\x7d'

/-- Scanner state of the `str.format` model: plain text, just after an
opening brace, just after a closing brace, or inside a replacement
field with the characters read so far. -/
inductive FmtState where
  | lit
  | openBrace
  | closeBrace
  | field (acc : List Char)
deriving DecidableEq, Repr

/-- The keyword a replacement field refers to: the field text truncated
at the first conversion (`!`) or format-spec (`:`) marker. -/
def fieldName (acc : List Char) : String :=
  String.mk (acc.takeWhile (fun c => !(c == ':' || c == '!')))

/-- First-match keyword lookup among the keyword arguments passed to
`str.format`. -/
def lookupKw : List (String × String) → String → Option String
  | [], _ => none
  | (k, v) :: rest, key => if key = k then some v else lookupKw rest key

/-- Character-level model of CPython `str.format` restricted to keyword
arguments: `{{` and `}}` are literal braces, `{kw}` substitutes the
keyword's value, an unknown keyword or a stray/unterminated brace is an
exception (`none`).  The output is built in `out` in reverse, so the
scanner is tail recursive. -/
def pyFormatAux (kwargs : List (String × String)) :
    FmtState → List Char → List Char → Option String
  | .lit, [], out => some (String.mk out.reverse)
  | .openBrace, [], _ => none
  | .closeBrace, [], _ => none
  | .field _, [], _ => none
  | .lit, c :: rest, out =>
      if c = lbrace then pyFormatAux kwargs .openBrace rest out
      else if c = rbrace then pyFormatAux kwargs .closeBrace rest out
      else pyFormatAux kwargs .lit rest (c :: out)
  | .openBrace, c :: rest, out =>
      if c = lbrace then pyFormatAux kwargs .lit rest (lbrace :: out)
      else if c = rbrace then none
      else pyFormatAux kwargs (.field [c]) rest out
  | .closeBrace, c :: rest, out =>
      if c = rbrace then pyFormatAux kwargs .lit rest (rbrace :: out)
      else none
  | .field acc, c :: rest, out =>
      if c = rbrace then
        match lookupKw kwargs (fieldName acc) with
        | some v => pyFormatAux kwargs .lit rest (List.reverseAux v.data out)
        | none => none
      else pyFormatAux kwargs (.field (acc ++ [c])) rest out

/-- Model of `str.format`: run the scanner from the plain-text state with
an empty output. -/
def pyFormat (kwargs : List (String × String)) (template : String) : Option String :=
  pyFormatAux kwargs .lit template.data []

/-- The replacement-field keywords of a template, scanned exactly as
`pyFormatAux` scans them (`none` on malformed braces). -/
def scanNames : FmtState → List Char → Option (List String)
  | .lit, [] => some []
  | .openBrace, [] => none
  | .closeBrace, [] => none
  | .field _, [] => none
  | .lit, c :: rest =>
      if c = lbrace then scanNames .openBrace rest
      else if c = rbrace then scanNames .closeBrace rest
      else scanNames .lit rest
  | .openBrace, c :: rest =>
      if c = lbrace then scanNames .lit rest
      else if c = rbrace then none
      else scanNames (.field [c]) rest
  | .closeBrace, c :: rest =>
      if c = rbrace then scanNames .lit rest
      else none
  | .field acc, c :: rest =>
      if c = rbrace then
        Option.map (fun ns => fieldName acc :: ns) (scanNames .lit rest)
      else scanNames (.field (acc ++ [c])) rest

/-- The keyword arguments `_format_prompt` passes to `str.format`
(source lines 498-517): the sixteen profile/knowledge fields (each
defaulting to the empty string when its key is absent), the rendered
conversation history, and the user input. -/
def formatKwargs (mem : ConversationMemory) (user_input : String) :
    List (String × String) :=
  let profile := mem.get_context "profile" []
  let knowledge := mem.get_context "knowledge" []
  [("name", dictGet profile "name" ""),
   ("company", dictGet profile "company" ""),
   ("role", dictGet profile "role" ""),
   ("interest_area", dictGet profile "interest_area" ""),
   ("company_size", dictGet profile "company_size" ""),
   ("experience", dictGet profile "experience" ""),
   ("current_role", dictGet profile "current_role" ""),
   ("applied_for", dictGet profile "applied_for" ""),
   ("position", dictGet knowledge "position" ""),
   ("skills", dictGet knowledge "skills" ""),
   ("experience_required", dictGet knowledge "experience_required" ""),
   ("company_domain", dictGet knowledge "company_domain" ""),
   ("invoice_number", dictGet knowledge "invoice_number" ""),
   ("due_amount", dictGet knowledge "due_amount" ""),
   ("days_late", dictGet knowledge "days_late" ""),
   ("payment_history", dictGet knowledge "payment_history" ""),
   ("conversation_history", mem.get_conversation_history),
   ("user_input", user_input)]

/-- The fixed placeholder names of `_format_prompt`, in the order the
keyword arguments are passed. -/
def FIXED_NAMES : List String :=
  ["name", "company", "role", "interest_area", "company_size",
   "experience", "current_role", "applied_for", "position", "skills",
   "experience_required", "company_domain", "invoice_number",
   "due_amount", "days_late", "payment_history",
   "conversation_history", "user_input"]

/-- The sixteen placeholder names drawn from the profile/knowledge
buckets (all of `FIXED_NAMES` except `conversation_history` and
`user_input`). -/
def CONTEXT_NAMES : List String :=
  ["name", "company", "role", "interest_area", "company_size",
   "experience", "current_role", "applied_for", "position", "skills",
   "experience_required", "company_domain", "invoice_number",
   "due_amount", "days_late", "payment_history"]

/-- Model of `_format_prompt` (source lines 485-517): `template.format(...)` with
the fixed keyword arguments; `none` models the `KeyError` raised when
the template holds a placeholder outside the fixed set. -/
def _format_prompt (mem : ConversationMemory)
    (template : String) (user_input : String) : Option String :=
  pyFormat (formatKwargs mem user_input) template

/-- The fixed fallback apology string of `generate_response`
(source line 535). -/
def FALLBACK : String :=
  "Sorry, I\x27m having trouble generating a response. Let me try again."

/-- Model of `generate_response` (source lines 519-535): the backend's text on
success, the fixed fallback string when the backend raises.  The
backend oracle already yields the extracted text of the API response. -/
def generate_response (backend : String → Except Unit String)
    (prompt : String) : String :=
  match backend prompt with
  | .ok text => text
  | .error _ => FALLBACK

/-- Model of `run_greeting_chain` (source lines 537-550): select the greeting
template, format it (no user input), generate, append the agent turn.
A `none` text means the formatting raised, in which case nothing was
appended yet. -/
def run_greeting_chain (backend : String → Except Unit String)
    (scenario : String) (mem : ConversationMemory) :
    Option String × ConversationMemory :=
  match _format_prompt mem (_get_prompt_template scenario "greeting") "" with
  | none => (none, mem)
  | some prompt =>
      let result := generate_response backend prompt
      (some result, mem.add_agent_message result)

/-- Model of `run_conversation_chain` (source lines 552-572): append the user
turn first, then format the conversation template (the freshly appended
user turn is part of the rendered history), generate, and append the
agent turn.  A `none` text means the formatting raised after the user
turn was already appended. -/
def run_conversation_chain (backend : String → Except Unit String)
    (scenario : String) (mem : ConversationMemory) (user_input : String) :
    Option String × ConversationMemory :=
  let mem1 := mem.add_user_message user_input
  match _format_prompt mem1 (_get_prompt_template scenario "conversation") user_input with
  | none => (none, mem1)
  | some prompt =>
      let result := generate_response backend prompt
      (some result, mem1.add_agent_message result)

/-- Model of `run_farewell_chain` (source lines 574-587): select the farewell
template, format it against the current memory, generate, append the
agent turn. -/
def run_farewell_chain (backend : String → Except Unit String)
    (scenario : String) (mem : ConversationMemory) :
    Option String × ConversationMemory :=
  match _format_prompt mem (_get_prompt_template scenario "farewell") "" with
  | none => (none, mem)
  | some prompt =>
      let result := generate_response backend prompt
      (some result, mem.add_agent_message result)

/-- The exit-phrase list of the conversation loop (source line 604). -/
def EXIT_PHRASES : List String :=
  ["bye", "goodbye", "end call", "quit", "exit", "bye-bye"]

/-- The exit check of the conversation loop (source line 604):
`user_input.lower() in [...]` — exact membership of the lowercased
input in the fixed list. -/
def isExitCommand (user_input : String) : Bool :=
  EXIT_PHRASES.contains (pyLower user_input)

/-- Model of `_load_scenario_data` (source lines 211-250): populate the context
buckets from the static per-scenario tables (the demo scenario sets
only the profile; an unknown scenario is a no-op). -/
def _load_scenario_data (scenario : String)
    (mem : ConversationMemory) : ConversationMemory :=
  if scenario = "demo" then
    mem.set_context "profile"
      [("name", "Ansh Aggarwal"),
       ("company", "Tech Solutions Ltd"),
       ("role", "IT Manager"),
       ("interest_area", "Inventory Management and HR modules"),
       ("company_size", "150 employees")]
  else if scenario = "interview" then
    (mem.set_context "profile"
      [("name", "Ansh Aggarwal"),
       ("experience", "3 years"),
       ("current_role", "Junior Developer"),
       ("applied_for", "Software Engineer")]).set_context "knowledge"
      [("position", "Software Engineer"),
       ("skills", "Python, React, SQL, Cloud platforms"),
       ("experience_required", "2-5 years"),
       ("company_domain", "FinTech")]
  else if scenario = "payment" then
    (mem.set_context "profile"
      [("name", "Customer"),
       ("company", "Global Enterprises"),
       ("role", "Procurement Manager")]).set_context "knowledge"
      [("invoice_number", "INV-2024-1075"),
       ("due_amount", "₹4,85,000"),
       ("days_late", "45"),
       ("payment_history", "Generally good, but occasional delays")]
  else mem

/-- The memory of a freshly constructed `GeminiAgent` for a scenario
(source lines 191-209): a fresh `ConversationMemory` with the scenario
data loaded. -/
def agentInit (scenario : String) : ConversationMemory :=
  _load_scenario_data scenario ConversationMemory.init

/-- The oracles of one call: the generation backend, the speech
recognizer (indexed by listen attempt; `Except.error` is an unexpected
exception escaping `recognize_speech`), and the text-to-speech player
(indexed by speak call; `true` is an unexpected exception escaping
`speak`). -/
structure CallEnv where
  backend : String → Except Unit String
  recog : Nat → Except Unit RecognitionResult
  speakFail : Nat → Bool

/-- Where, if anywhere, an exception reached the `except` handler of
`start_call`. -/
inductive RaisePoint where
  | noRaise
  | atGreeting
  | atLoop
  | atFarewell
deriving DecidableEq, Repr

/-- The state of a finished (or fuel-exhausted) call lifecycle:
the final memory, the `running` flag, whether the farewell phase was
reached, where an exception (if any) was caught, and whether the
lifecycle actually ended (`finished = false` means the loop was still
running when the observation fuel ran out). -/
structure CallOutcome where
  memory : ConversationMemory
  running : Bool
  farewellAttempted : Bool
  raisedAt : RaisePoint
  finished : Bool
deriving DecidableEq, Repr

/-- What one iteration of the conversation loop body does
(source lines 600-610). -/
inductive StepResult where
  | continueWith (li si : Nat) (mem : ConversationMemory)
  | toFarewell (si : Nat) (mem : ConversationMemory)
  | abortRaise (mem : ConversationMemory)
deriving DecidableEq, Repr

/-- One iteration of the conversation loop body (source lines 600-610):
listen; on an exit phrase break to the farewell; on empty input skip and
re-listen; otherwise run the conversation chain and speak the response.
`li` counts listen attempts and `si` counts speak calls. -/
def loop_step (env : CallEnv) (scenario : String)
    (li si : Nat) (mem : ConversationMemory) : StepResult :=
  match env.recog li with
  | .error _ => .abortRaise mem
  | .ok r =>
      let user_input := recognize_speech r
      if isExitCommand user_input then .toFarewell si mem
      else if user_input ≠ "" then
        match run_conversation_chain env.backend scenario mem user_input with
        | (some _, mem1) =>
            if env.speakFail si then .abortRaise mem1
            else .continueWith (li + 1) (si + 1) mem1
        | (none, mem1) => .abortRaise mem1
      else .continueWith (li + 1) si mem

/-- The farewell phase of `start_call` (source lines 612-614) followed
by the `finally` clause (`end_call`, source lines 622-626): generate and
speak the farewell, then clear the `running` flag unconditionally. -/
def run_farewell_phase (env : CallEnv) (scenario : String)
    (si : Nat) (mem : ConversationMemory) : CallOutcome :=
  match run_farewell_chain env.backend scenario mem with
  | (some _, mem1) =>
      if env.speakFail si then
        { memory := mem1, running := false, farewellAttempted := true,
          raisedAt := .atFarewell, finished := true }
      else
        { memory := mem1, running := false, farewellAttempted := true,
          raisedAt := .noRaise, finished := true }
  | (none, mem1) =>
      { memory := mem1, running := false, farewellAttempted := true,
        raisedAt := .atFarewell, finished := true }

/-- The conversation loop of `start_call` (source lines 599-614) with
its exception handler and `finally` clause: while `running`, run one
loop body; a break reaches the farewell phase; a raised exception skips
the farewell, is logged, and `end_call` still clears `running`.  `fuel`
bounds how many iterations are observed. -/
def call_loop (env : CallEnv) (scenario : String) :
    Nat → Nat → Nat → ConversationMemory → Bool → CallOutcome
  | 0, _, _, mem, running =>
      { memory := mem, running := running, farewellAttempted := false,
        raisedAt := .noRaise, finished := false }
  | fuel + 1, li, si, mem, running =>
      if running then
        match loop_step env scenario li si mem with
        | .continueWith li1 si1 mem1 => call_loop env scenario fuel li1 si1 mem1 running
        | .toFarewell si1 mem1 => run_farewell_phase env scenario si1 mem1
        | .abortRaise mem1 =>
            { memory := mem1, running := false, farewellAttempted := false,
              raisedAt := .atLoop, finished := true }
      else run_farewell_phase env scenario si mem

/-- Model of `start_call` (source lines 589-620): set `running`, run the greeting
and speak it, then the conversation loop, then the farewell; any
exception is caught and logged, and the `finally` clause runs `end_call`
on every path. -/
def start_call (env : CallEnv) (fuel : Nat)
    (scenario : String) (mem : ConversationMemory) : CallOutcome :=
  match run_greeting_chain env.backend scenario mem with
  | (none, mem1) =>
      { memory := mem1, running := false, farewellAttempted := false,
        raisedAt := .atGreeting, finished := true }
  | (some _, mem1) =>
      if env.speakFail 0 then
        { memory := mem1, running := false, farewellAttempted := false,
          raisedAt := .atGreeting, finished := true }
      else call_loop env scenario fuel 0 1 mem1 true

/-- The record `get_conversation_history` emits for one turn: role
label (`Customer` for user turns, `AI` otherwise), separator, content,
newline. -/
def renderTurnLine (t : Turn) : String :=
  (if t.role = "user" then "Customer" else "AI") ++ ": " ++ t.content ++ "\n"

/-- Concatenation of a list of strings. -/
def concatAll : List String → String
  | [] => ""
  | s :: rest => s ++ concatAll rest

/-- Every user turn recorded in a memory is a fixpoint of lowercasing. -/
def UserTurnsLower (mem : ConversationMemory) : Prop :=
  ∀ t ∈ mem.messages, t.role = "user" → t.content = pyLower t.content

/-- Oracles of a call whose first listen raises an unexpected
exception (for instance an `OSError` from opening the microphone, which
`recognize_speech` does not catch), while the backend and the speaker
behave normally. -/
def envC1cex : CallEnv :=
  { backend := fun _ => .ok "Namaste, kya hum demo schedule kar sakte hain?",
    recog := fun _ => .error (),
    speakFail := fun _ => false }

/-- Oracles of a call whose backend always fails and whose caller says
an exit phrase at once. -/
def envW1 : CallEnv :=
  { backend := fun _ => .error (),
    recog := fun _ => .ok (.success "Bye"),
    speakFail := fun _ => false }

/-- Oracles of a call whose recognizer always times out. -/
def envW5 : CallEnv :=
  { backend := fun _ => .ok "ok",
    recog := fun _ => .ok .waitTimeout,
    speakFail := fun _ => false }

/-- Oracles of a call with one mixed-case utterance and a backend that
always answers `Ok`. -/
def envW9 : CallEnv :=
  { backend := fun _ => .ok "Ok",
    recog := fun _ => .ok (.success "Hi There"),
    speakFail := fun _ => false }

/-- Oracles of a call whose backend always fails and whose caller says
`Goodbye`. -/
def envW10 : CallEnv :=
  { backend := fun _ => .error (),
    recog := fun _ => .ok (.success "Goodbye"),
    speakFail := fun _ => false }

/-- A keyword lookup succeeds exactly when the key occurs among the
keyword names. -/
lemma lookupKw_isSome_iff (l : List (String × String)) (key : String) :
    (lookupKw l key).isSome = true ↔ key ∈ l.map Prod.fst := by
  induction l with
  | nil => simp [lookupKw]
  | cons p rest ih =>
      obtain ⟨k, v⟩ := p
      by_cases h : key = k
      · subst h; simp [lookupKw]
      · simp [lookupKw, h, ih]

/-- Lookup modelling `dict.get` yields the default when the key is absent. -/
lemma dictGet_of_not_hasKey {α : Type} (l : List (String × α)) (key : String)
    (d : α) (h : dictHasKey l key = false) : dictGet l key d = d := by
  induction l with
  | nil => simp [dictGet]
  | cons p rest ih =>
      obtain ⟨k, v⟩ := p
      by_cases hk : key = k
      · subst hk; simp [dictHasKey] at h
      · simp [dictHasKey, hk] at h
        simp [dictGet, hk, ih h]

/-- The keyword names passed by `_format_prompt` are exactly the fixed
placeholder set, whatever the memory state. -/
lemma formatKwargs_keys (mem : ConversationMemory) (u : String) :
    (formatKwargs mem u).map Prod.fst = FIXED_NAMES := rfl

/-- If the scan of a template succeeds and every scanned keyword is
known, the format succeeds. -/
lemma pyFormatAux_isSome_of_scan (kwargs : List (String × String)) :
    ∀ (l : List Char) (st : FmtState) (ns : List String) (out : List Char),
      scanNames st l = some ns →
      (∀ nm ∈ ns, (lookupKw kwargs nm).isSome = true) →
      (pyFormatAux kwargs st l out).isSome = true := by
  intro l
  induction l with
  | nil =>
      intro st ns out hscan hns
      cases st <;> simp [scanNames, pyFormatAux] at hscan ⊢
  | cons c rest ih =>
      intro st ns out hscan hns
      cases st with
      | lit =>
          by_cases h1 : c = lbrace
          · simp [scanNames, pyFormatAux, h1, lbrace, rbrace] at hscan ⊢
            exact ih _ _ _ hscan hns
          · by_cases h2 : c = rbrace
            · simp [scanNames, pyFormatAux, h1, h2, lbrace, rbrace] at hscan ⊢
              exact ih _ _ _ hscan hns
            · simp [scanNames, pyFormatAux, h1, h2] at hscan ⊢
              exact ih _ _ _ hscan hns
      | openBrace =>
          by_cases h1 : c = lbrace
          · simp [scanNames, pyFormatAux, h1, lbrace, rbrace] at hscan ⊢
            exact ih _ _ _ hscan hns
          · by_cases h2 : c = rbrace
            · simp [scanNames, h1, h2, lbrace, rbrace] at hscan
            · simp [scanNames, pyFormatAux, h1, h2] at hscan ⊢
              exact ih _ _ _ hscan hns
      | closeBrace =>
          by_cases h1 : c = rbrace
          · simp [scanNames, pyFormatAux, h1, lbrace, rbrace] at hscan ⊢
            exact ih _ _ _ hscan hns
          · simp [scanNames, h1] at hscan
      | field acc =>
          by_cases h1 : c = rbrace
          · simp [scanNames, pyFormatAux, h1, lbrace, rbrace] at hscan ⊢
            obtain ⟨ns1, hrest, hcons⟩ := hscan
            have hhead := hns (fieldName acc) (by simp [← hcons])
            obtain ⟨v, hv⟩ := Option.isSome_iff_exists.mp hhead
            rw [hv]
            exact ih _ _ _ hrest (fun nm hm => hns nm (by simp [← hcons, hm]))
          · simp [scanNames, pyFormatAux, h1] at hscan ⊢
            exact ih _ _ _ hscan hns

/-- If the format of a template succeeds, its scan succeeds and every
scanned keyword is known. -/
lemma scan_of_pyFormatAux_isSome (kwargs : List (String × String)) :
    ∀ (l : List Char) (st : FmtState) (out : List Char),
      (pyFormatAux kwargs st l out).isSome = true →
      ∃ ns, scanNames st l = some ns ∧
        ∀ nm ∈ ns, (lookupKw kwargs nm).isSome = true := by
  intro l
  induction l with
  | nil =>
      intro st out hfmt
      cases st <;> simp [scanNames, pyFormatAux] at hfmt ⊢
  | cons c rest ih =>
      intro st out hfmt
      cases st with
      | lit =>
          by_cases h1 : c = lbrace
          · simp [scanNames, pyFormatAux, h1, lbrace, rbrace] at hfmt ⊢
            exact ih _ _ hfmt
          · by_cases h2 : c = rbrace
            · simp [scanNames, pyFormatAux, h1, h2, lbrace, rbrace] at hfmt ⊢
              exact ih _ _ hfmt
            · simp [scanNames, pyFormatAux, h1, h2] at hfmt ⊢
              exact ih _ _ hfmt
      | openBrace =>
          by_cases h1 : c = lbrace
          · simp [scanNames, pyFormatAux, h1, lbrace, rbrace] at hfmt ⊢
            exact ih _ _ hfmt
          · by_cases h2 : c = rbrace
            · simp [pyFormatAux, h1, h2, lbrace, rbrace] at hfmt
            · simp [scanNames, pyFormatAux, h1, h2] at hfmt ⊢
              exact ih _ _ hfmt
      | closeBrace =>
          by_cases h1 : c = rbrace
          · simp [scanNames, pyFormatAux, h1, lbrace, rbrace] at hfmt ⊢
            exact ih _ _ hfmt
          · simp [pyFormatAux, h1] at hfmt
      | field acc =>
          by_cases h1 : c = rbrace
          · rcases hlk : lookupKw kwargs (fieldName acc) with _ | v
            · simp [pyFormatAux, h1, lbrace, rbrace, hlk] at hfmt
            · simp [pyFormatAux, h1, lbrace, rbrace, hlk] at hfmt
              obtain ⟨ns, hns, hall⟩ := ih _ _ hfmt
              refine ⟨fieldName acc :: ns, ?_, ?_⟩
              · simp [scanNames, h1, lbrace, rbrace, hns]
              · intro nm hm
                rcases List.mem_cons.mp hm with h | h
                · subst h
                  simp [hlk]
                · exact hall nm h
          · simp [scanNames, pyFormatAux, h1] at hfmt ⊢
            exact ih _ _ hfmt

/-- Every `(scenario, phase)` lookup yields one of the nine catalog
templates or the empty string. -/
lemma catalog_mem (scenario phase : String) :
    _get_prompt_template scenario phase ∈
      [demo_greeting, demo_conversation, demo_farewell,
       interview_greeting, interview_conversation, interview_farewell,
       payment_greeting, payment_conversation, payment_farewell, ""] := by
  unfold _get_prompt_template templates
  by_cases h1 : scenario = "demo"
  · subst h1
    by_cases p1 : phase = "greeting"
    · subst p1; simp [dictGet]
    · by_cases p2 : phase = "conversation"
      · subst p2; simp [dictGet]
      · by_cases p3 : phase = "farewell"
        · subst p3; simp [dictGet]
        · simp [dictGet, p1, p2, p3]
  · by_cases h2 : scenario = "interview"
    · subst h2
      by_cases p1 : phase = "greeting"
      · subst p1; simp [dictGet]
      · by_cases p2 : phase = "conversation"
        · subst p2; simp [dictGet]
        · by_cases p3 : phase = "farewell"
          · subst p3; simp [dictGet]
          · simp [dictGet, p1, p2, p3]
    · by_cases h3 : scenario = "payment"
      · subst h3
        by_cases p1 : phase = "greeting"
        · subst p1; simp [dictGet, h1, h2]
        · by_cases p2 : phase = "conversation"
          · subst p2; simp [dictGet, h1, h2]
          · by_cases p3 : phase = "farewell"
            · subst p3; simp [dictGet, h1, h2]
            · simp [dictGet, h1, h2, p1, p2, p3]
      · simp [dictGet, h1, h2, h3]

/-- A template whose scanned keywords all lie in the fixed placeholder
set formats successfully against any full keyword list. -/
lemma pyFormat_total_of_scan (kwargs : List (String × String)) (t : String)
    (ns : List String) (hscan : scanNames .lit t.data = some ns)
    (hsub : ∀ nm ∈ ns, nm ∈ FIXED_NAMES)
    (hk : kwargs.map Prod.fst = FIXED_NAMES) :
    (pyFormat kwargs t).isSome = true :=
  pyFormatAux_isSome_of_scan kwargs t.data .lit ns [] hscan
    (fun nm hm => by
      rw [lookupKw_isSome_iff, hk]
      exact hsub nm hm)

/-- Every catalog template (and the silent empty-string default)
formats successfully against every memory state and user input. -/
lemma catalog_format_total (scenario phase : String)
    (mem : ConversationMemory) (u : String) :
    (pyFormat (formatKwargs mem u) (_get_prompt_template scenario phase)).isSome = true := by
  have hmem := catalog_mem scenario phase
  simp only [List.mem_cons, List.not_mem_nil, or_false] at hmem
  rcases hmem with h|h|h|h|h|h|h|h|h|h <;> rw [h] <;>
    exact pyFormat_total_of_scan _ _ _ rfl (by decide) (formatKwargs_keys mem u)

/-- Conversion `Char.ofNat` round-trips on ASCII lowercase codes. -/
lemma charOfNat_toNat_lower (n : Nat) (h1 : 97 ≤ n) (h2 : n ≤ 122) :
    (Char.ofNat n).toNat = n := by
  interval_cases n <;> decide

/-- Lowercasing a character twice is the same as lowercasing it once. -/
lemma pyLowerChar_idem (c : Char) : pyLowerChar (pyLowerChar c) = pyLowerChar c := by
  by_cases h : 65 ≤ c.toNat ∧ c.toNat ≤ 90
  · have hval : (Char.ofNat (c.toNat + 32)).toNat = c.toNat + 32 :=
      charOfNat_toNat_lower _ (by omega) (by omega)
    have hinner : pyLowerChar c = Char.ofNat (c.toNat + 32) := by
      unfold pyLowerChar; rw [if_pos h]
    rw [hinner]
    unfold pyLowerChar
    rw [if_neg (by rw [hval]; omega)]
  · have hinner : pyLowerChar c = c := by unfold pyLowerChar; rw [if_neg h]
    rw [hinner, hinner]

/-- Lowercasing a string is idempotent. -/
lemma pyLower_idem (s : String) : pyLower (pyLower s) = pyLower s := by
  unfold pyLower
  congr 1
  rw [show (String.mk (s.data.map pyLowerChar)).data = s.data.map pyLowerChar from rfl,
    List.map_map]
  exact List.map_congr_left (fun c _ => by
    simp only [Function.comp_apply]
    exact pyLowerChar_idem c)

lemma get_history_foldl (msgs : List Turn) (acc : String) :
    msgs.foldl (fun history msg =>
      let pfx := if msg.role = "user" then "Customer" else "AI"
      history ++ pfx ++ ": " ++ msg.content ++ "\n") acc
    = acc ++ concatAll (msgs.map renderTurnLine) := by
  induction msgs generalizing acc with
  | nil => simp [concatAll]
  | cons t rest ih =>
      simp only [List.foldl_cons, List.map_cons, concatAll]
      rw [ih]
      simp [renderTurnLine, String.append_assoc]

lemma get_history_eq_concat (ctx : List (String × List (String × String)))
    (msgs : List Turn) :
    ConversationMemory.get_conversation_history ⟨ctx, msgs⟩ =
      concatAll (msgs.map renderTurnLine) := by
  unfold ConversationMemory.get_conversation_history
  simpa using get_history_foldl msgs ""

lemma renderTurnLine_newlines (t : Turn) (h : ¬ '\n' ∈ t.content.data) :
    (renderTurnLine t).data.count '\n' = 1 := by
  unfold renderTurnLine
  by_cases hr : t.role = "user" <;>
    simp [hr, String.data_append, List.count_append, List.count_eq_zero.mpr h]

lemma userLower_add_agent {mem : ConversationMemory} (r : String)
    (h : UserTurnsLower mem) : UserTurnsLower (mem.add_agent_message r) := by
  intro t ht hrole
  simp [ConversationMemory.add_agent_message] at ht
  rcases ht with ht | rfl
  · exact h t ht hrole
  · simp at hrole

lemma userLower_add_user {mem : ConversationMemory} (u : String)
    (hu : u = pyLower u) (h : UserTurnsLower mem) :
    UserTurnsLower (mem.add_user_message u) := by
  intro t ht hrole
  simp [ConversationMemory.add_user_message] at ht
  rcases ht with ht | rfl
  · exact h t ht hrole
  · exact hu

lemma userLower_greeting_chain (backend : String → Except Unit String)
    (scenario : String) {mem : ConversationMemory} (h : UserTurnsLower mem) :
    UserTurnsLower (run_greeting_chain backend scenario mem).2 := by
  unfold run_greeting_chain
  cases hf : _format_prompt mem (_get_prompt_template scenario "greeting") "" with
  | none => simpa [hf] using h
  | some p => simpa [hf] using userLower_add_agent _ h

lemma userLower_farewell_chain (backend : String → Except Unit String)
    (scenario : String) {mem : ConversationMemory} (h : UserTurnsLower mem) :
    UserTurnsLower (run_farewell_chain backend scenario mem).2 := by
  unfold run_farewell_chain
  cases hf : _format_prompt mem (_get_prompt_template scenario "farewell") "" with
  | none => simpa [hf] using h
  | some p => simpa [hf] using userLower_add_agent _ h

lemma userLower_conv_chain (backend : String → Except Unit String)
    (scenario : String) (u : String) {mem : ConversationMemory}
    (hu : u = pyLower u) (h : UserTurnsLower mem) :
    UserTurnsLower (run_conversation_chain backend scenario mem u).2 := by
  have hstep := userLower_add_user u hu h
  unfold run_conversation_chain
  cases hf : _format_prompt (mem.add_user_message u)
      (_get_prompt_template scenario "conversation") u with
  | none => simpa [hf] using hstep
  | some p => simpa [hf] using userLower_add_agent _ hstep

lemma recognize_lower (r : RecognitionResult) :
    recognize_speech r = pyLower (recognize_speech r) := by
  cases r with
  | success t => simp [recognize_speech, pyLower_idem]
  | unknownValue => rfl
  | requestError => rfl
  | waitTimeout => rfl

lemma userLower_loop_step (env : CallEnv) (scenario : String) (li si : Nat)
    {mem : ConversationMemory} (h : UserTurnsLower mem) :
    (∀ li1 si1 mem1,
        loop_step env scenario li si mem = .continueWith li1 si1 mem1 →
        UserTurnsLower mem1) ∧
    (∀ si1 mem1,
        loop_step env scenario li si mem = .toFarewell si1 mem1 →
        UserTurnsLower mem1) ∧
    (∀ mem1,
        loop_step env scenario li si mem = .abortRaise mem1 →
        UserTurnsLower mem1) := by
  unfold loop_step
  cases hr : env.recog li with
  | error e =>
      refine ⟨?_, ?_, ?_⟩
      · intro li1 si1 mem1 hstep; simp at hstep
      · intro si1 mem1 hstep; simp at hstep
      · intro mem1 hstep
        simp at hstep
        exact hstep ▸ h
  | ok r =>
      have hconv := userLower_conv_chain env.backend scenario (recognize_speech r)
        (recognize_lower r) h
      by_cases he : isExitCommand (recognize_speech r) = true
      · refine ⟨?_, ?_, ?_⟩
        · intro li1 si1 mem1 hstep; simp [he] at hstep
        · intro si1 mem1 hstep; simp [he] at hstep
          exact hstep.2 ▸ h
        · intro mem1 hstep; simp [he] at hstep
      · simp only [Bool.not_eq_true] at he
        by_cases hne : recognize_speech r = ""
        · have hx : isExitCommand "" = false := by decide
          refine ⟨?_, ?_, ?_⟩
          · intro li1 si1 mem1 hstep; simp [he, hne, hx] at hstep
            exact hstep.2.2 ▸ h
          · intro si1 mem1 hstep; simp [he, hne, hx] at hstep
          · intro mem1 hstep; simp [he, hne, hx] at hstep
        · rcases hrc : run_conversation_chain env.backend scenario mem
            (recognize_speech r) with ⟨o, mem1'⟩
          have hmem1 : UserTurnsLower mem1' := by rw [hrc] at hconv; exact hconv
          rcases o with _ | resp
          · refine ⟨?_, ?_, ?_⟩
            · intro li1 si1 mem1 hstep; simp [he, hne, hrc] at hstep
            · intro si1 mem1 hstep; simp [he, hne, hrc] at hstep
            · intro mem1 hstep; simp [he, hne, hrc] at hstep
              exact hstep ▸ hmem1
          · cases hs : env.speakFail si
            · refine ⟨?_, ?_, ?_⟩
              · intro li1 si1 mem1 hstep; simp [he, hne, hrc, hs] at hstep
                exact hstep.2.2 ▸ hmem1
              · intro si1 mem1 hstep; simp [he, hne, hrc, hs] at hstep
              · intro mem1 hstep; simp [he, hne, hrc, hs] at hstep
            · refine ⟨?_, ?_, ?_⟩
              · intro li1 si1 mem1 hstep; simp [he, hne, hrc, hs] at hstep
              · intro si1 mem1 hstep; simp [he, hne, hrc, hs] at hstep
              · intro mem1 hstep; simp [he, hne, hrc, hs] at hstep
                exact hstep ▸ hmem1

lemma userLower_farewell_phase (env : CallEnv) (scenario : String) (si : Nat)
    {mem : ConversationMemory} (h : UserTurnsLower mem) :
    UserTurnsLower (run_farewell_phase env scenario si mem).memory := by
  have hch := userLower_farewell_chain env.backend scenario h
  unfold run_farewell_phase
  rcases hf : run_farewell_chain env.backend scenario mem with ⟨o, mem1⟩
  have h1 : UserTurnsLower mem1 := by rw [hf] at hch; exact hch
  rcases o with _ | fw
  · simpa using h1
  · cases hs : env.speakFail si <;> simpa [hs] using h1

lemma userLower_call_loop (env : CallEnv) (scenario : String) :
    ∀ (fuel li si : Nat) (mem : ConversationMemory) (running : Bool),
      UserTurnsLower mem →
      UserTurnsLower (call_loop env scenario fuel li si mem running).memory := by
  intro fuel
  induction fuel with
  | zero => intro li si mem running h; simpa [call_loop] using h
  | succ n ih =>
      intro li si mem running h
      cases running with
      | false =>
          simp only [call_loop]
          rw [if_neg (by simp)]
          exact userLower_farewell_phase env scenario si h
      | true =>
          simp only [call_loop, if_true]
          obtain ⟨hc, ht, ha⟩ := userLower_loop_step env scenario li si h
          cases hstep : loop_step env scenario li si mem with
          | continueWith li1 si1 mem1 => exact ih li1 si1 mem1 true (hc li1 si1 mem1 hstep)
          | toFarewell si1 mem1 =>
              have h1 := ht si1 mem1 hstep
              exact userLower_farewell_phase env scenario si1 h1
          | abortRaise mem1 => simpa using ha mem1 hstep

/-- The farewell phase always clears the running flag, always marks the
farewell as attempted, never reports the exception point of the
conversation loop, and always finishes the lifecycle. -/
lemma run_farewell_phase_flags (env : CallEnv) (scenario : String) (si : Nat)
    (mem : ConversationMemory) :
    (run_farewell_phase env scenario si mem).running = false ∧
    (run_farewell_phase env scenario si mem).farewellAttempted = true ∧
    (run_farewell_phase env scenario si mem).raisedAt ≠ .atLoop ∧
    (run_farewell_phase env scenario si mem).finished = true := by
  unfold run_farewell_phase
  rcases run_farewell_chain env.backend scenario mem with ⟨o, mem1⟩
  rcases o with _ | fw
  · simp
  · cases hs : env.speakFail si <;> simp [hs]

/-- Every finished run of the conversation loop ends with the running
flag cleared, and an exception caught in the loop means the farewell
was not attempted. -/
lemma call_loop_shutdown (env : CallEnv) (scenario : String) :
    ∀ (fuel li si : Nat) (mem : ConversationMemory) (running : Bool),
      ((call_loop env scenario fuel li si mem running).finished = true →
        (call_loop env scenario fuel li si mem running).running = false) ∧
      ((call_loop env scenario fuel li si mem running).raisedAt = .atLoop →
        (call_loop env scenario fuel li si mem running).farewellAttempted = false) := by
  intro fuel
  induction fuel with
  | zero =>
      intro li si mem running
      constructor
      · intro h; simp [call_loop] at h
      · intro h; simp [call_loop] at h
  | succ n ih =>
      intro li si mem running
      cases running with
      | false =>
          have hf := run_farewell_phase_flags env scenario si mem
          constructor
          · intro _
            simp only [call_loop]
            rw [if_neg (by simp)]
            exact hf.1
          · intro hcontra
            exfalso
            apply hf.2.2.1
            simp only [call_loop] at hcontra
            rw [if_neg (by simp)] at hcontra
            exact hcontra
      | true =>
          simp only [call_loop, if_true]
          cases hstep : loop_step env scenario li si mem with
          | continueWith li1 si1 mem1 => exact ih li1 si1 mem1 true
          | toFarewell si1 mem1 =>
              have hf := run_farewell_phase_flags env scenario si1 mem1
              exact ⟨fun _ => hf.1, fun hc => absurd hc hf.2.2.1⟩
          | abortRaise mem1 => exact ⟨fun _ => rfl, fun _ => rfl⟩

/-- C1 (counterexample): in a call on the demo scenario whose first
listen raises an unexpected speech-I/O exception — after the greeting
succeeded and before any normal exit — the controller does NOT attempt
the farewell phase: the exception is caught (`raisedAt = atLoop`), the
lifecycle ends, and `farewellAttempted` is `false`.  This refutes the
claim that the controller still attempts the farewell phase before
terminating on such failures. -/
theorem spec_C1_counterexample :
    (start_call envC1cex 3 "demo" (agentInit "demo")).raisedAt = .atLoop ∧
    (start_call envC1cex 3 "demo" (agentInit "demo")).finished = true ∧
    (start_call envC1cex 3 "demo" (agentInit "demo")).farewellAttempted = false := by
  exact ⟨rfl, rfl, rfl⟩

/-- C1 (amended): when an unexpected exception is raised by speech I/O
during the active conversation, the controller catches it and
terminates WITHOUT attempting the farewell phase (the farewell runs
only on a normal exit); generation failures are absorbed into fallback
text and never raise.  In every case in which the lifecycle ends, the
`finally` clause has cleared the running flag. -/
theorem spec_C1_graceful_amended (env : CallEnv) (fuel : Nat)
    (scenario : String) (mem : ConversationMemory) :
    ((start_call env fuel scenario mem).finished = true →
      (start_call env fuel scenario mem).running = false) ∧
    ((start_call env fuel scenario mem).raisedAt = .atLoop →
      (start_call env fuel scenario mem).farewellAttempted = false) := by
  unfold start_call
  rcases run_greeting_chain env.backend scenario mem with ⟨o, mem1⟩
  rcases o with _ | g
  · exact ⟨fun _ => rfl, fun hcontra => by simp at hcontra⟩
  · cases hs : env.speakFail 0
    · exact call_loop_shutdown env scenario fuel 0 1 mem1 true
    · exact ⟨fun _ => rfl, fun hcontra => by simp at hcontra⟩

/-- C1 (witness for the amended claim): a concrete finished call ends
with the running flag cleared. -/
theorem spec_C1_witness :
    (start_call envW1 2 "demo" (agentInit "demo")).running = false :=
  (spec_C1_graceful_amended envW1 2 "demo" (agentInit "demo")).1 rfl

/-- C2: the template lookup does NOT fail loudly on an unknown
`(scenario, phase)` pair — it silently yields the empty string, both
for an unknown phase of a known scenario and for an unknown scenario —
while a known pair yields a non-empty template.  The claim (and the
spec's mandated contract) calls for a typed error instead; this theorem
evaluates the code at the failing inputs. -/
theorem spec_C2_code_eval :
    _get_prompt_template "demo" "closing" = "" ∧
    _get_prompt_template "sales" "greeting" = "" ∧
    _get_prompt_template "demo" "greeting" ≠ "" := by
  refine ⟨rfl, rfl, ?_⟩
  decide

/-- C3: for every user input, `run_conversation_chain` appends the user
turn first and then exactly one agent turn, growing the history by
exactly two in that order; the agent turn carries the backend's text
when the backend succeeds on the built prompt and the fixed fallback
text when it fails. -/
theorem spec_C3_turn_appends (backend : String → Except Unit String)
    (scenario : String) (mem : ConversationMemory) (u : String) :
    ∃ r p, _format_prompt (mem.add_user_message u)
        (_get_prompt_template scenario "conversation") u = some p ∧
      run_conversation_chain backend scenario mem u =
        (some r, (mem.add_user_message u).add_agent_message r) ∧
      ((mem.add_user_message u).add_agent_message r).messages =
        mem.messages ++
          [{ role := "user", content := u }, { role := "agent", content := r }] ∧
      ((mem.add_user_message u).add_agent_message r).messages.length =
        mem.messages.length + 2 ∧
      ((∃ t, backend p = .ok t ∧ r = t) ∨
        (∃ e, backend p = .error e ∧ r = FALLBACK)) := by
  have htot := catalog_format_total scenario "conversation" (mem.add_user_message u) u
  obtain ⟨p, hp⟩ := Option.isSome_iff_exists.mp htot
  have hp' : _format_prompt (mem.add_user_message u)
      (_get_prompt_template scenario "conversation") u = some p := hp
  refine ⟨generate_response backend p, p, hp', ?_, ?_, ?_, ?_⟩
  · simp only [run_conversation_chain, hp']
  · simp [ConversationMemory.add_user_message, ConversationMemory.add_agent_message]
  · simp [ConversationMemory.add_user_message, ConversationMemory.add_agent_message]
  · cases hb : backend p with
    | ok t => exact Or.inl ⟨t, rfl, by unfold generate_response; rw [hb]⟩
    | error e => exact Or.inr ⟨e, rfl, by unfold generate_response; rw [hb]⟩

/-- C4: the conversation loop breaks to the farewell exactly when the
lowercased input is literally one of the six exit phrases; matching is
case-insensitive and exact (a string merely containing a phrase, such
as `goodbye for now`, does not match), and a matching step hands the
loop over to the farewell phase. -/
theorem spec_C4_exit_matching :
    (∀ s : String, isExitCommand s = true ↔
      (pyLower s = "bye" ∨ pyLower s = "goodbye" ∨ pyLower s = "end call" ∨
       pyLower s = "quit" ∨ pyLower s = "exit" ∨ pyLower s = "bye-bye")) ∧
    isExitCommand "BYE" = true ∧
    isExitCommand "goodbye for now" = false ∧
    (∀ env scenario li si mem r, env.recog li = Except.ok r →
      ((loop_step env scenario li si mem = .toFarewell si mem) ↔
        isExitCommand (recognize_speech r) = true)) ∧
    (∀ env scenario fuel li si mem,
      loop_step env scenario li si mem = .toFarewell si mem →
      call_loop env scenario (fuel + 1) li si mem true =
        run_farewell_phase env scenario si mem) := by
  refine ⟨?_, by decide, by decide, ?_, ?_⟩
  · intro s
    simp [isExitCommand, EXIT_PHRASES]
  · intro env scenario li si mem r h
    constructor
    · intro hstep
      by_contra he
      simp only [Bool.not_eq_true] at he
      by_cases hne : recognize_speech r = ""
      · simp [loop_step, h, he, hne] at hstep
        exact absurd hstep (by decide)
      · rcases hrc : run_conversation_chain env.backend scenario mem
          (recognize_speech r) with ⟨o, mem1⟩
        rcases o with _ | resp
        · simp [loop_step, h, he, hne, hrc] at hstep
        · simp [loop_step, h, he, hne, hrc] at hstep
          split at hstep <;> simp at hstep
    · intro he
      simp [loop_step, h, he]
  · intro env scenario fuel li si mem hstep
    simp [call_loop, hstep]

/-- C4 (witness): with a recognizer that returns `Bye`, the loop step
breaks to the farewell with the memory untouched. -/
theorem spec_C4_witness :
    loop_step envW1 "demo" 0 1 (agentInit "demo") =
      .toFarewell 1 (agentInit "demo") :=
  (spec_C4_exit_matching.2.2.2.1 envW1 "demo" 0 1 (agentInit "demo")
    (.success "Bye") rfl).mpr (by decide)

/-- C5: all three recognition-failure modes are mapped to the empty
string, and a loop iteration whose recognition yields the empty string
skips the turn: the step re-listens with the next listen index, the
memory and the speak counter unchanged (so no turn is appended, no
generation happens, and the loop neither exits nor reaches the
farewell). -/
theorem spec_C5_empty_input_skips :
    (recognize_speech .unknownValue = "" ∧ recognize_speech .requestError = "" ∧
     recognize_speech .waitTimeout = "") ∧
    (∀ env scenario li si mem r, env.recog li = Except.ok r →
      recognize_speech r = "" →
      loop_step env scenario li si mem = .continueWith (li + 1) si mem) := by
  refine ⟨⟨rfl, rfl, rfl⟩, ?_⟩
  intro env scenario li si mem r h hempty
  have hx : isExitCommand "" = false := by decide
  unfold loop_step
  rw [h]
  simp [hempty, hx]

/-- C5 (witness): a timed-out listen produces a skipped turn. -/
theorem spec_C5_witness :
    loop_step envW5 "demo" 0 1 (agentInit "demo") =
      .continueWith 1 1 (agentInit "demo") :=
  spec_C5_empty_input_skips.2 envW5 "demo" 0 1 (agentInit "demo")
    .waitTimeout rfl rfl

/-- C6: formatting never raises for any catalog template against any
profile/knowledge state (first conjunct); every context placeholder is
substituted with the empty string when its key is missing from both
buckets (second conjunct); and formatting does fail — `none`, modelling
the `KeyError` — whenever a template holds a placeholder name outside
the fixed set (third conjunct). -/
theorem spec_C6_format_robust :
    (∀ scenario phase mem u, ∃ s,
       _format_prompt mem (_get_prompt_template scenario phase) u = some s) ∧
    (∀ mem u nm, nm ∈ CONTEXT_NAMES →
       dictHasKey (mem.get_context "profile" []) nm = false →
       dictHasKey (mem.get_context "knowledge" []) nm = false →
       lookupKw (formatKwargs mem u) nm = some "") ∧
    (∀ mem u t ns nm, scanNames .lit t.data = some ns → nm ∈ ns →
       nm ∉ FIXED_NAMES → _format_prompt mem t u = none) := by
  refine ⟨?_, ?_, ?_⟩
  · intro scenario phase mem u
    exact Option.isSome_iff_exists.mp (catalog_format_total scenario phase mem u)
  · intro mem u nm hnm hp hk
    simp only [CONTEXT_NAMES, List.mem_cons, List.not_mem_nil, or_false] at hnm
    rcases hnm with rfl|rfl|rfl|rfl|rfl|rfl|rfl|rfl|rfl|rfl|rfl|rfl|rfl|rfl|rfl|rfl <;>
      simp [formatKwargs, lookupKw, dictGet_of_not_hasKey _ _ _ hp,
        dictGet_of_not_hasKey _ _ _ hk]
  · intro mem u t ns nm hscan hmem hnot
    cases hfmt : _format_prompt mem t u with
    | none => rfl
    | some s =>
        exfalso
        have hs : (pyFormatAux (formatKwargs mem u) FmtState.lit t.data []).isSome = true := by
          unfold _format_prompt pyFormat at hfmt
          simp [hfmt]
        obtain ⟨ns1, hscan1, hall⟩ :=
          scan_of_pyFormatAux_isSome (formatKwargs mem u) t.data .lit [] hs
        rw [hscan] at hscan1
        injection hscan1 with hns
        subst hns
        have := hall nm hmem
        rw [lookupKw_isSome_iff, formatKwargs_keys] at this
        exact hnot this

/-- C6 (witness): a template with a placeholder outside the fixed set
fails to format. -/
theorem spec_C6_witness :
    _format_prompt ConversationMemory.init "xx {bogus} yy" "" = none :=
  spec_C6_format_robust.2.2 ConversationMemory.init "" "xx {bogus} yy" ["bogus"] "bogus"
    rfl (by decide) (by decide)

/-- C7: `generate_response` returns the backend's text when the backend
succeeds and the fixed fallback apology string when it raises, so a
generation failure never propagates out of the call. -/
theorem spec_C7_generate_fallback (backend : String → Except Unit String)
    (prompt : String) :
    (∀ t, backend prompt = .ok t → generate_response backend prompt = t) ∧
    (∀ e, backend prompt = .error e → generate_response backend prompt = FALLBACK) := by
  constructor
  · intro t h; unfold generate_response; rw [h]
  · intro e h; unfold generate_response; rw [h]

/-- C7 (witness): a failing backend yields the fallback string. -/
theorem spec_C7_witness :
    generate_response (fun _ => .error ()) "prompt" = FALLBACK :=
  (spec_C7_generate_fallback (fun _ => .error ()) "prompt").2 () rfl

/-- C8: the history rendering is the in-order concatenation of one
`Role: content` record per turn (`Customer` for user turns, `AI` for
agent turns), one record per turn; it depends only on the messages
(never on — and, being a pure function, never mutating — the context);
and when no turn content holds a newline the rendering has exactly one
line per turn. -/
theorem spec_C8_history_rendering
    (ctx ctx' : List (String × List (String × String))) (msgs : List Turn) :
    ConversationMemory.get_conversation_history ⟨ctx, msgs⟩ =
      concatAll (msgs.map renderTurnLine) ∧
    (msgs.map renderTurnLine).length = msgs.length ∧
    ConversationMemory.get_conversation_history ⟨ctx, msgs⟩ =
      ConversationMemory.get_conversation_history ⟨ctx', msgs⟩ ∧
    ((∀ t ∈ msgs, ¬ '\n' ∈ t.content.data) →
      (ConversationMemory.get_conversation_history ⟨ctx, msgs⟩).data.count '\n' =
        msgs.length) := by
  refine ⟨get_history_eq_concat ctx msgs, List.length_map _ _, ?_, ?_⟩
  · rw [get_history_eq_concat, get_history_eq_concat]
  · intro h
    rw [get_history_eq_concat]
    induction msgs with
    | nil => simp [concatAll]
    | cons t rest ih =>
        simp only [List.map_cons, concatAll, List.length_cons]
        rw [String.data_append, List.count_append,
          renderTurnLine_newlines t (h t (by simp)),
          ih (fun t' ht' => h t' (by simp [ht']))]
        omega

/-- C8 (witness): two newline-free turns render as exactly two lines. -/
theorem spec_C8_witness :
    (ConversationMemory.get_conversation_history
      ⟨[], [{ role := "user", content := "hello" },
            { role := "agent", content := "hi" }]⟩).data.count '\n' = 2 :=
  (spec_C8_history_rendering [] []
    [{ role := "user", content := "hello" }, { role := "agent", content := "hi" }]).2.2.2
    (by decide)

/-- C9: a successful transcription is returned lowercased, and the call
lifecycle preserves the invariant that every user turn recorded in the
history is entirely lowercase (a fixpoint of lowercasing) — so the
`user_input` and history lines embedded in prompts carry the lowercased
text, never the caller's original casing. -/
theorem spec_C9_lowercased_history :
    (∀ t, recognize_speech (.success t) = pyLower t) ∧
    (∀ env fuel scenario mem, UserTurnsLower mem →
      UserTurnsLower (start_call env fuel scenario mem).memory) := by
  refine ⟨fun t => rfl, ?_⟩
  intro env fuel scenario mem h
  have hch := userLower_greeting_chain env.backend scenario h
  unfold start_call
  rcases hf : run_greeting_chain env.backend scenario mem with ⟨o, mem1⟩
  have h1 : UserTurnsLower mem1 := by rw [hf] at hch; exact hch
  rcases o with _ | g
  · simpa using h1
  · cases hs : env.speakFail 0
    · exact userLower_call_loop env scenario fuel 0 1 mem1 true h1
    · exact h1

/-- C9 (witness): the mixed-case utterance `Hi There` is recorded as
the lowercase user turn `hi there`. -/
theorem spec_C9_witness : "hi there" = pyLower "hi there" := by
  have hmem : (start_call envW9 1 "demo" (agentInit "demo")).memory.messages =
      [{ role := "agent", content := "Ok" },
       { role := "user", content := "hi there" },
       { role := "agent", content := "Ok" }] := rfl
  exact spec_C9_lowercased_history.2 envW9 1 "demo" (agentInit "demo")
    (fun t ht => absurd (show t ∈ ([] : List Turn) from ht) (List.not_mem_nil t))
    { role := "user", content := "hi there" } (by rw [hmem]; simp) rfl

/-- C10: an exit-phrase input breaks the loop with the memory untouched
(the exit utterance is never appended); the `conversation_history`
keyword handed to the farewell formatting is exactly the rendering of
the memory as it stood before the exit phrase; and the farewell phase
appends only the single agent farewell turn on top of that history. -/
theorem spec_C10_exit_frame (env : CallEnv) (scenario : String)
    (li si : Nat) (mem : ConversationMemory) (r : RecognitionResult)
    (h : env.recog li = Except.ok r)
    (he : isExitCommand (recognize_speech r) = true) :
    loop_step env scenario li si mem = .toFarewell si mem ∧
    lookupKw (formatKwargs mem "") "conversation_history" =
      some mem.get_conversation_history ∧
    (∃ p fw, _format_prompt mem (_get_prompt_template scenario "farewell") "" = some p ∧
      fw = generate_response env.backend p ∧
      (run_farewell_phase env scenario si mem).memory.messages =
        mem.messages ++ [{ role := "agent", content := fw }]) := by
  refine ⟨by simp [loop_step, h, he], rfl, ?_⟩
  have htot := catalog_format_total scenario "farewell" mem ""
  obtain ⟨p, hp⟩ := Option.isSome_iff_exists.mp htot
  have hp' : _format_prompt mem (_get_prompt_template scenario "farewell") "" = some p := hp
  refine ⟨p, generate_response env.backend p, hp', rfl, ?_⟩
  unfold run_farewell_phase run_farewell_chain
  rw [hp']
  cases hs : env.speakFail si <;>
    simp [hs, ConversationMemory.add_agent_message]

/-- C10 (witness): saying `Goodbye` breaks the loop with the memory
unchanged. -/
theorem spec_C10_witness :
    loop_step envW10 "interview" 0 1 (agentInit "interview") =
      .toFarewell 1 (agentInit "interview") :=
  (spec_C10_exit_frame envW10 "interview" 0 1 (agentInit "interview")
    (.success "Goodbye") rfl (by decide)).1
